import Mathlib

/-!
# Verification of the iosuite orchestration layer

Shallow embedding of the orchestration core of the `iosuite` repository:
the cost model and batch engine of `tools/ioimg/cmd/upscale.go`, the
RunPod endpoint lifecycle manager, the network-volume CRUD, and the
network-volume workflow of `libs/iocore` (`runpod.go`, the serverless
volume workflow and the ffmpeg execution router).

Modelling conventions:
* Go strings are `List Char` (`GoString`); `strings.HasPrefix s p` is
  `p.isPrefixOf s`.
* Go `float64` arithmetic is modelled exactly over `ℚ`; `time.Duration`
  is its underlying `int64` nanosecond count, modelled as `ℤ`.
* Every external effect (HTTP call, file system access, subprocess) is
  an oracle value passed in as part of an environment structure; the
  embedded functions record which effectful calls they issue.
* `fmt.Errorf` messages that only wrap an inner error are modelled as
  symbolic error tags; the formatting of the message text is elided.
-/

deriving instance DecidableEq for Except

namespace IOSuite

/-- Go strings, modelled as their character sequences. -/
abbrev GoString := List Char

/-! ## Cost model — `calculateCost` (tools/ioimg/cmd/upscale.go:480-494) -/

/-- `time.Duration.Seconds()`: the duration is an `int64` count of
nanoseconds and `Seconds` divides it by `1e9`.  `float64` values are
modelled as exact rationals. -/
def durationSeconds (durationNs : ℤ) : ℚ := (durationNs : ℚ) / 1000000000

/-- Go's `int(x)` conversion of a `float64`: truncation toward zero. -/
def goTruncInt (q : ℚ) : ℤ := if 0 ≤ q then ⌊q⌋ else ⌈q⌉

/-- `calculateCost(rate, duration, isActive)` from
`tools/ioimg/cmd/upscale.go`:

```go
func calculateCost(rate float64, duration time.Duration, isActive bool) float64 {
    if rate == 0 { return 0.0 }
    seconds := duration.Seconds()
    if !isActive {
        billingSeconds := float64(int(seconds))
        if seconds > billingSeconds { billingSeconds += 1 }
        return billingSeconds * rate
    }
    return seconds * rate
}
``` -/
def calculateCost (rate : ℚ) (durationNs : ℤ) (isActive : Bool) : ℚ :=
  if rate = 0 then 0
  else
    let seconds := durationSeconds durationNs
    if !isActive then
      let billingSeconds : ℚ := (goTruncInt seconds : ℚ)
      let billingSeconds := if seconds > billingSeconds then billingSeconds + 1 else billingSeconds
      billingSeconds * rate
    else
      seconds * rate

/-! ## Endpoint lifecycle — `EnsureRunPodEndpoint` (libs/iocore runpod.go:66-132) -/

/-- A RunPod serverless endpoint as decoded from the list response
(struct `RunPodEndpoint`; the GPU and worker fields are not consumed by
the operations embedded here and are elided). -/
structure RunPodEndpoint where
  id : GoString
  name : GoString
  networkVolumeID : GoString := []
  networkVolumeIDs : List GoString := []
deriving DecidableEq

/-- Outcome of the `GET /v1/endpoints` listing request inside
`EnsureRunPodEndpoint`. -/
inductive ListOutcome where
  /-- `client.Do(listReq)` returned an error. -/
  | transportError
  /-- Response arrived with a non-200 status. -/
  | badStatus (status : ℕ)
  /-- Status 200 but the JSON body failed to decode. -/
  | decodeError
  /-- Status 200 with a decoded endpoint list. -/
  | ok (endpoints : List RunPodEndpoint)
deriving DecidableEq

/-- Outcome of the `POST /v1/endpoints` creation request; a request
error, a bad status, and an undecodable body all collapse to `failure`
(they all return an error in the code). -/
inductive CreateOutcome where
  | failure
  | ok (endpoint : RunPodEndpoint)
deriving DecidableEq

/-- Symbolic error results of `EnsureRunPodEndpoint`. -/
inductive EnsureError where
  /-- "failed to list RunPod endpoints: ..." -/
  | listTransport
  /-- Any error on the creation path. -/
  | createFailed
deriving DecidableEq

/-- Result of one `EnsureRunPodEndpoint` call: the returned id or error,
plus whether the creation POST was issued. -/
structure EnsureResult where
  result : Except EnsureError GoString
  createRequested : Bool
deriving DecidableEq

/-- The creation half of `EnsureRunPodEndpoint` (runpod.go:97-131). -/
def ensureCreate (create : CreateOutcome) : EnsureResult :=
  match create with
  | .failure => ⟨.error .createFailed, true⟩
  | .ok ep => ⟨.ok ep.id, true⟩

/-- `EnsureRunPodEndpoint(ctx, key, config)` (runpod.go:66-132): list the
endpoints; on a 200 response that decodes, return the first whose name
has `config.Name` as a prefix; a non-200 status or a decode failure is
logged and falls through to creation; a transport error on the listing
request returns an error immediately. -/
def ensureRunPodEndpoint (listing : ListOutcome) (create : CreateOutcome)
    (configName : GoString) : EnsureResult :=
  match listing with
  | .transportError => ⟨.error .listTransport, false⟩
  | .badStatus _ => ensureCreate create
  | .decodeError => ensureCreate create
  | .ok endpoints =>
    match endpoints.find? (fun e => configName.isPrefixOf e.name) with
    | some e => ⟨.ok e.id, false⟩
    | none => ensureCreate create

/-- Fresh endpoint id issued by the server model. -/
def freshEndpointId (n : ℕ) : GoString := ("ep-" ++ toString n).data

/-- Abstract state of the RunPod account, for the idempotency claim. -/
structure EndpointServer where
  endpoints : List RunPodEndpoint
  counter : ℕ
deriving DecidableEq

/-- One `EnsureRunPodEndpoint` call against a server whose listing
succeeds and returns the account's endpoints, and whose creation, when
requested, succeeds and registers a fresh endpoint carrying the posted
config's `Name` (the code marshals `config`, whose `Name` field is the
lookup name). -/
def serverEnsure (s : EndpointServer) (configName : GoString) :
    EndpointServer × EnsureResult :=
  let fresh : RunPodEndpoint := { id := freshEndpointId s.counter, name := configName }
  let r := ensureRunPodEndpoint (.ok s.endpoints) (.ok fresh) configName
  (if r.createRequested then ⟨s.endpoints ++ [fresh], s.counter + 1⟩ else s, r)

/-! ## Network-volume CRUD — `CreateNetworkVolume` (runpod.go:482-525) -/

/-- Outcome of the `POST /v1/networkvolumes` request. -/
inductive PostOutcome where
  | transportError
  | badStatus (status : ℕ)
  | decodeError
  | ok (id : GoString)
deriving DecidableEq

/-- Symbolic error results of `CreateNetworkVolume`. -/
inductive CreateVolumeError where
  /-- "RunPod network volume size must be at least 10GB" -/
  | sizeTooSmall
  /-- Transport error, bad status, or undecodable body. -/
  | requestFailed
deriving DecidableEq

/-- `CreateNetworkVolume(ctx, key, name, sizeGB, dataCenterID)`
(runpod.go:482-525): the size check precedes the JSON marshal and the
HTTP POST, so a too-small size yields an error with no request issued.
Returns the result together with whether the POST was issued. -/
def createNetworkVolume (sizeGB : ℤ) (post : PostOutcome) :
    Except CreateVolumeError GoString × Bool :=
  if sizeGB < 10 then (.error .sizeTooSmall, false)
  else
    match post with
    | .transportError => (.error .requestFailed, true)
    | .badStatus _ => (.error .requestFailed, true)
    | .decodeError => (.error .requestFailed, true)
    | .ok vid => (.ok vid, true)

/-! ## Batch engine — `processPath` (tools/ioimg/cmd/upscale.go:262-478) -/

/-- A batch unit (`upscaleJob`), together with the oracle values that
drive it: `dstExists` abstracts whether `os.Stat(job.dst)` succeeds at
filter time, and `succeeds` abstracts whether `upscaleFile` returns nil
for this job. -/
structure UpscaleJob where
  src : GoString
  dst : GoString
  dstExists : Bool
  succeeds : Bool
deriving DecidableEq

/-- Per-file record (`fileMetric`; the duration, cost and error-message
fields are not consumed by the counting claims and are elided). -/
structure FileMetric where
  name : GoString
  success : Bool
deriving DecidableEq

/-- `batchMetrics` (upscale.go:56-67); the wall-time, billed-time, cost
and byte totals are not consumed by the counting claims and are
elided. -/
structure BatchMetrics where
  totalFiles : ℕ
  skipped : ℕ
  success : ℕ
  failure : ℕ
  files : List FileMetric
deriving DecidableEq

/-- Symbolic batch-run errors. -/
inductive BatchError where
  /-- "no images found to process" -/
  | noImages
  /-- "failed to process <file>: <err>" (abort on first failure) -/
  | perFileFailure
  /-- "<n> file(s) failed to process" (after the loop) -/
  | filesFailed
deriving DecidableEq

/-- `filepath.Base` restricted to the file paths the batch enumerator
produces (non-empty, no trailing separator): the component after the
last path separator. -/
def baseName (p : GoString) : GoString :=
  (p.reverse.takeWhile (fun c => c != '/')).reverse

/-- Result of a batch run: final metrics, the run's result, and the
jobs actually processed, in order. -/
structure BatchRun where
  metrics : BatchMetrics
  result : Except BatchError Unit
  processed : List UpscaleJob
deriving DecidableEq

/-- The per-job loop of `processPath` (upscale.go:418-466): each job
runs `upscaleFile`; a failure increments `Failure` and — unless
continue-on-error is set — appends the per-file record and aborts with
an error; a success increments `Success`; either way exactly one record
is appended.  After the loop, any recorded failure makes the run return
an error. -/
def processJobs (continueOnError : Bool) (m : BatchMetrics) :
    List UpscaleJob → BatchRun
  | [] => ⟨m, if 0 < m.failure then .error .filesFailed else .ok (), []⟩
  | job :: rest =>
    let metric : FileMetric := ⟨baseName job.src, job.succeeds⟩
    if job.succeeds then
      let res := processJobs continueOnError
        { m with success := m.success + 1, files := m.files ++ [metric] } rest
      ⟨res.metrics, res.result, job :: res.processed⟩
    else
      let m' := { m with failure := m.failure + 1, files := m.files ++ [metric] }
      if continueOnError then
        let res := processJobs continueOnError m' rest
        ⟨res.metrics, res.result, job :: res.processed⟩
      else
        ⟨m', .error .perFileFailure, [job]⟩

/-- The destination-existence filter (upscale.go:353-368): without the
overwrite flag, jobs whose destination already exists are dropped. -/
def filterJobs (overwrite : Bool) (jobs : List UpscaleJob) : List UpscaleJob :=
  if overwrite then jobs else jobs.filter (fun j => !j.dstExists)

/-- `processPath` after enumeration (upscale.go:349-478): an empty
enumeration is an error; the skip filter is applied, and if it leaves
nothing (with at least one skip) the run returns success immediately
without processing anything; otherwise the loop runs with `TotalFiles`
the enumerated count and `Skipped` the number filtered out. -/
def processPath (overwrite continueOnError : Bool) (jobs0 : List UpscaleJob) :
    BatchRun :=
  if jobs0.isEmpty then ⟨⟨0, 0, 0, 0, []⟩, .error .noImages, []⟩
  else if !overwrite && (filterJobs overwrite jobs0).isEmpty
      && decide (0 < jobs0.length - (filterJobs overwrite jobs0).length) then
    ⟨⟨0, 0, 0, 0, []⟩, .ok (), []⟩
  else
    processJobs continueOnError
      ⟨jobs0.length, jobs0.length - (filterJobs overwrite jobs0).length, 0, 0, []⟩
      (filterJobs overwrite jobs0)

/-! ## Per-file execution effects — `upscaleFile` and `runRunPodFFmpeg` -/

/-- Oracle for the effectful steps of `upscaleFile`
(tools/ioimg/cmd/upscale.go:496-525). -/
structure UpscaleFileEnv where
  /-- `os.MkdirAll(filepath.Dir(dst), 0755)` -/
  mkdirOk : Bool
  /-- `os.Open(src)` -/
  openSrcOk : Bool
  /-- `os.Create(dst)` -/
  createDstOk : Bool
  /-- `upscaler.Upscale(ctx, inFile, outFile)` -/
  upscaleOk : Bool
deriving DecidableEq

/-- Symbolic errors of `upscaleFile`. -/
inductive UpscaleFileError where
  | mkdirFailed
  | openFailed
  | createFailed
  | upscaleFailed
deriving DecidableEq

/-- `upscaleFile(src, dst, upscaler)` (upscale.go:496-525): makes the
output directory, opens the source, creates the destination file, and
only then invokes the upscaler; nothing removes the created destination
file when the upscaler fails.  Returns the result together with whether
a file exists at `dst` as an effect of this call. -/
def upscaleFileEffects (env : UpscaleFileEnv) : Except UpscaleFileError Unit × Bool :=
  if env.mkdirOk = false then (.error .mkdirFailed, false)
  else if env.openSrcOk = false then (.error .openFailed, false)
  else if env.createDstOk = false then (.error .createFailed, false)
  else if env.upscaleOk = false then (.error .upscaleFailed, true)
  else (.ok (), true)

/-- The `job.Output` fields consumed by `runRunPodFFmpeg`; `none` means
the key is absent or not a string. -/
structure FFmpegJobOutput where
  outputBase64 : Option GoString
  imageBase64 : Option GoString
deriving DecidableEq

/-- Oracle for the effectful steps of `runRunPodFFmpeg`
(libs/iocore ffmpeg.go:177-263). -/
structure RunPodFFmpegEnv where
  /-- `GetRunPodEndpoints(ctx, key, endpointName)`; `none` = error. -/
  listEndpoints : Option (List RunPodEndpoint)
  /-- `os.ReadFile(input)` -/
  readInputOk : Bool
  /-- `RunRunPodJobSync(...)`; `none` = error or failed job. -/
  runSync : Option FFmpegJobOutput
  /-- `base64.StdEncoding.DecodeString(base64Out)` -/
  decodeOk : Bool
  /-- `os.WriteFile(output, decoded, 0644)` -/
  writeOk : Bool
deriving DecidableEq

/-- Symbolic errors of `runRunPodFFmpeg`. -/
inductive FFmpegRunError where
  | listFailed
  | noEndpoint
  | readFailed
  | jobFailed
  | noOutput
  | decodeFailed
  | writeFailed
deriving DecidableEq

/-- `runRunPodFFmpeg(ctx, config, input, output, filter, extraArgs)`
(ffmpeg.go:177-263): list the endpoints matching the name, read and
inline the input, run the job synchronously, pick `output_base64` (else
`image_base64`) from the job output, decode it, and only then write the
output file.  Returns the result together with whether the write to
`output` was attempted. -/
def runPodFFmpegEffects (endpointName : GoString) (env : RunPodFFmpegEnv) :
    Except FFmpegRunError Unit × Bool :=
  match env.listEndpoints with
  | none => (.error .listFailed, false)
  | some eps =>
    match eps.filter (fun e => endpointName.isPrefixOf e.name) with
    | [] => (.error .noEndpoint, false)
    | _ :: _ =>
      if env.readInputOk = false then (.error .readFailed, false)
      else
        match env.runSync with
        | none => (.error .jobFailed, false)
        | some out =>
          let base64Out : GoString :=
            match out.outputBase64 with
            | some s => s
            | none =>
              match out.imageBase64 with
              | some s => s
              | none => []
          if base64Out = [] then (.error .noOutput, false)
          else if env.decodeOk = false then (.error .decodeFailed, false)
          else if env.writeOk = false then (.error .writeFailed, true)
          else (.ok (), true)

/-! ## Network-volume workflow — `RunPodServerlessVolumeWorkflow`
(libs/iocore runpod.go:605-747) -/

/-- A RunPod network volume (struct `NetworkVolume`). -/
structure NetworkVolume where
  id : GoString
  name : GoString
  size : ℤ
  dataCenterID : GoString
  status : GoString
deriving DecidableEq

/-- Configuration of the workflow (struct `VolumeWorkflowConfig`); the
credential and the input/output path, ffmpeg-args, GPU and data-center
fields only flow into the job payload and file names, which the
embedded claims do not consume, and are elided. -/
structure VolumeWorkflowConfig where
  region : GoString
  endpointID : GoString
  volumeSizeGB : ℤ
  volumeID : GoString
  useVolume : Bool
  templateID : GoString
  keepFailed : Bool
deriving DecidableEq

/-- The part of a job's output consumed by the download step
(`job.Output["output_path"]`). -/
structure VolumeJobOutput where
  outputPath : Option GoString
deriving DecidableEq

/-- Oracle for the workflow's effectful calls. -/
structure WorkflowEnv where
  /-- `GetRunPodEndpoints(ctx, key, "")` during volume auto-discovery;
  `none` = listing error (swallowed by the code). -/
  discover : Option (List RunPodEndpoint)
  /-- `CreateNetworkVolume(...)`; `none` = error (fatal). -/
  createVol : Option GoString
  /-- `ListNetworkVolumes(...)` during region resolution; `none` =
  listing error (swallowed by the code). -/
  listVolumes : Option (List NetworkVolume)
  /-- Ambient `AWS_ACCESS_KEY_ID`. -/
  awsAccessKey : GoString
  /-- Ambient `AWS_SECRET_ACCESS_KEY`. -/
  awsSecretKey : GoString
  /-- `NewS3Client(...)` -/
  s3ClientOk : Bool
  /-- `s3Client.UploadFile(...)` -/
  uploadOk : Bool
  /-- `ProvisionRunPodModel(...)`; `none` = error (fatal). -/
  provision : Option GoString
  /-- `RunRunPodJobSync(...)`; `none` = transport error or failed job
  (fatal). -/
  runSync : Option VolumeJobOutput
  /-- `s3Client.DownloadFile(...)` -/
  downloadOk : Bool
  /-- `DeleteNetworkVolume(...)`; its result is discarded by the code
  (`_ = DeleteNetworkVolume(...)`), so this field is unread. -/
  deleteOk : Bool
deriving DecidableEq

/-- The workflow's observable states, recorded in execution order. -/
inductive WfStep where
  | discover
  | createVolume
  | resolveRegion
  | upload
  | ensureEndpoint
  | submit
  | download
  | cleanup
deriving DecidableEq

/-- Symbolic fatal errors of the workflow. -/
inductive WorkflowError where
  | createVolumeFailed
  | credsMissing
  | s3ClientFailed
  | uploadFailed
  | provisionFailed
  | noEndpoint
  | submitFailed
  | downloadFailed
deriving DecidableEq

/-- Observable outcome of one workflow run: the effectful states in the
order they were entered, the returned result, and the final value of the
local `volumeID` variable. -/
structure WorkflowRun where
  trace : List WfStep
  result : Except WorkflowError Unit
  volumeID : GoString
deriving DecidableEq

/-- Step 1 (runpod.go:611-634): volume auto-discovery from the target
endpoint's attachment list, entered only when no volume id was supplied,
an endpoint id is known and a volume was requested; a listing error is
swallowed.  Returns the emitted states and the volume id. -/
def wfResolveVolume (cfg : VolumeWorkflowConfig) (env : WorkflowEnv) :
    List WfStep × GoString :=
  if cfg.volumeID = [] ∧ cfg.endpointID ≠ [] ∧
      (cfg.useVolume || decide (cfg.volumeID ≠ []) || decide (cfg.volumeSizeGB ≥ 10)) = true then
    match env.discover with
    | none => ([.discover], cfg.volumeID)
    | some eps =>
      match eps.find? (fun e => e.id == cfg.endpointID) with
      | none => ([.discover], cfg.volumeID)
      | some e =>
        if e.networkVolumeID ≠ [] then ([.discover], e.networkVolumeID)
        else
          match e.networkVolumeIDs with
          | v :: _ => ([.discover], v)
          | [] => ([.discover], cfg.volumeID)
  else ([], cfg.volumeID)

/-- Step 2 (runpod.go:636-648): create the volume when none is resolved
and a size of at least 10 GB was requested; a creation error is fatal. -/
def wfCreateVolume (cfg : VolumeWorkflowConfig) (env : WorkflowEnv)
    (volumeID : GoString) : List WfStep × Except WorkflowError GoString :=
  if volumeID = [] ∧ cfg.volumeSizeGB ≥ 10 then
    match env.createVol with
    | none => ([.createVolume], .error .createVolumeFailed)
    | some vid => ([.createVolume], .ok vid)
  else ([], .ok volumeID)

/-- Step 3 (runpod.go:650-665): resolve the volume's region from the
volume list, entered only when a volume id is known; a listing error is
swallowed and the configured region kept. -/
def wfResolveRegion (cfg : VolumeWorkflowConfig) (env : WorkflowEnv)
    (volumeID : GoString) : List WfStep × GoString :=
  if volumeID ≠ [] then
    match env.listVolumes with
    | none => ([.resolveRegion], cfg.region)
    | some vols =>
      match vols.find? (fun v => v.id == volumeID) with
      | none => ([.resolveRegion], cfg.region)
      | some v =>
        if v.dataCenterID ≠ [] then ([.resolveRegion], v.dataCenterID)
        else ([.resolveRegion], cfg.region)
  else ([], cfg.region)

/-- Step 4 (runpod.go:667-677): the ambient object-store credentials
check and the S3 client construction; both failures are fatal. -/
def wfS3Setup (env : WorkflowEnv) : Except WorkflowError Unit :=
  if env.awsAccessKey = [] ∨ env.awsSecretKey = [] then .error .credsMissing
  else if env.s3ClientOk = false then .error .s3ClientFailed
  else .ok ()

/-- Step 5, after the upload (runpod.go:686-703): ensure the endpoint
exists, provisioning when no id is known and a template was supplied;
an empty id after that is fatal. -/
def wfEnsureEndpoint (cfg : VolumeWorkflowConfig) (env : WorkflowEnv) :
    List WfStep × Except WorkflowError GoString :=
  if cfg.endpointID = [] ∧ cfg.templateID ≠ [] then
    match env.provision with
    | none => ([.ensureEndpoint], .error .provisionFailed)
    | some eid => ([.ensureEndpoint], .ok eid)
  else if cfg.endpointID = [] then ([], .error .noEndpoint)
  else ([], .ok cfg.endpointID)

/-- `RunPodServerlessVolumeWorkflow(ctx, cfg, status)`
(runpod.go:605-747): resolve or create the volume, resolve its region,
set up S3, upload the input, ensure the endpoint, submit the job
synchronously, download the output, and delete the volume unless
`KeepFailed` is set; every fatal step error returns immediately,
skipping all later steps including cleanup. -/
def runVolumeWorkflow (cfg : VolumeWorkflowConfig) (env : WorkflowEnv) :
    WorkflowRun :=
  let rv := wfResolveVolume cfg env
  let cv := wfCreateVolume cfg env rv.2
  match cv.2 with
  | .error e => ⟨rv.1 ++ cv.1, .error e, rv.2⟩
  | .ok volumeID =>
    let rr := wfResolveRegion cfg env volumeID
    match wfS3Setup env with
    | .error e => ⟨rv.1 ++ cv.1 ++ rr.1, .error e, volumeID⟩
    | .ok _ =>
      if env.uploadOk = false then
        ⟨rv.1 ++ cv.1 ++ rr.1 ++ [.upload], .error .uploadFailed, volumeID⟩
      else
        let ee := wfEnsureEndpoint cfg env
        match ee.2 with
        | .error e => ⟨rv.1 ++ cv.1 ++ rr.1 ++ [.upload] ++ ee.1, .error e, volumeID⟩
        | .ok _endpointID =>
          match env.runSync with
          | none =>
            ⟨rv.1 ++ cv.1 ++ rr.1 ++ [.upload] ++ ee.1 ++ [.submit],
              .error .submitFailed, volumeID⟩
          | some _job =>
            if env.downloadOk = false then
              ⟨rv.1 ++ cv.1 ++ rr.1 ++ [.upload] ++ ee.1 ++ [.submit, .download],
                .error .downloadFailed, volumeID⟩
            else if cfg.keepFailed = false then
              ⟨rv.1 ++ cv.1 ++ rr.1 ++ [.upload] ++ ee.1
                  ++ [.submit, .download, .cleanup],
                .ok (), volumeID⟩
            else
              ⟨rv.1 ++ cv.1 ++ rr.1 ++ [.upload] ++ ee.1 ++ [.submit, .download],
                .ok (), volumeID⟩

/-- The canonical full ordering of the workflow's states. -/
def wfCanonicalOrder : List WfStep :=
  [.discover, .createVolume, .resolveRegion, .upload, .ensureEndpoint,
   .submit, .download, .cleanup]

/-! ## Concrete witness inputs -/

/-- A batch job numbered `n`, destination absent, succeeding iff `ok`. -/
def sampleJob (n : ℕ) (ok : Bool) : UpscaleJob :=
  ⟨("in" ++ toString n ++ ".png").data, ("out" ++ toString n ++ ".png").data, false, ok⟩

/-- A five-file batch whose third file fails. -/
def sampleBatch : List UpscaleJob :=
  [sampleJob 1 true, sampleJob 2 true, sampleJob 3 false, sampleJob 4 true, sampleJob 5 true]

/-- A batch job whose destination already exists, as left behind by a
fully successful first run. -/
def sampleDoneJob (n : ℕ) : UpscaleJob :=
  ⟨("in" ++ toString n ++ ".png").data, ("out" ++ toString n ++ ".png").data, true, true⟩

/-- A remote-ffmpeg environment whose synchronous job fails after a
successful endpoint lookup and input read. -/
def sampleFFmpegJobFails : RunPodFFmpegEnv :=
  ⟨some [{ id := "e1".data, name := "io-ffmpeg-a".data }], true, none, true, true⟩

/-- A workflow configuration that requests a volume by a size below the
10 GB provider minimum, with no volume id and no endpoint id — the
configuration produced by invoking the volume path with `--volume 5`. -/
def smallVolumeCfg : VolumeWorkflowConfig :=
  { region := "EU-RO-1".data, endpointID := [], volumeSizeGB := 5, volumeID := [],
    useVolume := false, templateID := "uduo7jdyhn".data, keepFailed := false }

/-- A workflow configuration with an explicit volume id and endpoint id
and keep-on-failure unset. -/
def explicitVolumeCfg : VolumeWorkflowConfig :=
  { region := "EU-RO-1".data, endpointID := "ep1".data, volumeSizeGB := 0,
    volumeID := "vol1".data, useVolume := true, templateID := [], keepFailed := false }

/-- A fully healthy workflow environment: every external call succeeds. -/
def healthyEnv : WorkflowEnv :=
  { discover := some [], createVol := some "v1".data, listVolumes := some [],
    awsAccessKey := "AK".data, awsSecretKey := "SK".data, s3ClientOk := true,
    uploadOk := true, provision := some "ep1".data, runSync := some ⟨none⟩,
    downloadOk := true, deleteOk := true }

/-- The healthy environment with the synchronous job failing. -/
def jobFailsEnv : WorkflowEnv :=
  { healthyEnv with runSync := none }

/-! ## Helper lemmas -/

/-- The truncate-then-bump computation in the flex branch of
`calculateCost` is exactly the ceiling, for durations of either sign. -/
theorem goTruncInt_bump_eq_ceil (q : ℚ) :
    (if q > (goTruncInt q : ℚ) then (goTruncInt q : ℚ) + 1 else (goTruncInt q : ℚ)) = (⌈q⌉ : ℚ) := by
  unfold goTruncInt
  by_cases h0 : 0 ≤ q
  · simp only [if_pos h0]
    by_cases hq : q > (⌊q⌋ : ℚ)
    · have hne : (⌈q⌉ : ℤ) = ⌊q⌋ + 1 := by
        refine le_antisymm ?_ ?_
        · refine Int.ceil_le.mpr (le_of_lt ?_)
          push_cast
          exact Int.lt_floor_add_one q
        · have h1 : (⌊q⌋ : ℚ) < (⌈q⌉ : ℚ) := lt_of_lt_of_le hq (Int.le_ceil q)
          exact Int.add_one_le_iff.mpr (by exact_mod_cast h1)
      rw [if_pos hq, hne]
      push_cast
      ring
    · have hle : q ≤ (⌊q⌋ : ℚ) := not_lt.mp hq
      have heq : q = (⌊q⌋ : ℚ) := le_antisymm hle (Int.floor_le q)
      have hceil : (⌈q⌉ : ℤ) = ⌊q⌋ := by
        rw [heq]
        simp
      rw [if_neg hq, hceil]
  · simp only [if_neg h0]
    have : ¬ q > (⌈q⌉ : ℚ) := not_lt.mpr (Int.le_ceil q)
    rw [if_neg this]

/-- `strings.HasPrefix(s, s)` holds: a Go string is a prefix of itself. -/
theorem goString_isPrefixOf_self (l : GoString) : l.isPrefixOf l = true := by
  induction l with
  | nil => rfl
  | cons a as ih => simp [List.isPrefixOf, ih]

/-- `find?` over an append whose left part has no hit. -/
theorem find?_append_of_left_none {α : Type} (p : α → Bool) (l₁ l₂ : List α)
    (h : l₁.find? p = none) : (l₁ ++ l₂).find? p = l₂.find? p := by
  rw [List.find?_append, h, Option.none_or]

/-- With continue-on-error set the loop visits every job. -/
theorem processJobs_processed_continue (m : BatchMetrics) (js : List UpscaleJob) :
    (processJobs true m js).processed = js := by
  induction js generalizing m with
  | nil => rfl
  | cons j rest ih =>
    by_cases hs : j.succeeds <;> simp [processJobs, hs, ih]

/-- With continue-on-error unset the loop visits everything up to and
including the first failing job (the whole list when none fails). -/
theorem processJobs_processed_abort (m : BatchMetrics) (js : List UpscaleJob) :
    (processJobs false m js).processed
      = js.take (js.findIdx (fun j => !j.succeeds) + 1) := by
  induction js generalizing m with
  | nil => rfl
  | cons j rest ih =>
    by_cases hs : j.succeeds
    · simp [processJobs, hs, ih, List.findIdx_cons, List.take_succ_cons]
    · simp [processJobs, hs, List.findIdx_cons]

/-- Loop invariant: each processed job appends exactly one per-file
record and increments exactly one of the success/failure counters; the
enumeration-time fields are never touched by the loop. -/
theorem processJobs_counts (c : Bool) (m : BatchMetrics) (js : List UpscaleJob) :
    (processJobs c m js).metrics.success
        = m.success + ((processJobs c m js).processed).countP (fun j => j.succeeds) ∧
    (processJobs c m js).metrics.failure
        = m.failure + ((processJobs c m js).processed).countP (fun j => !j.succeeds) ∧
    ((processJobs c m js).metrics.files).length
        = m.files.length + ((processJobs c m js).processed).length ∧
    (processJobs c m js).metrics.totalFiles = m.totalFiles ∧
    (processJobs c m js).metrics.skipped = m.skipped := by
  induction js generalizing m with
  | nil => simp [processJobs]
  | cons j rest ih =>
    cases hs : j.succeeds with
    | true =>
      obtain ⟨ih1, ih2, ih3, ih4, ih5⟩ :=
        ih { m with success := m.success + 1,
                    files := m.files ++ [⟨baseName j.src, true⟩] }
      refine ⟨?_, ?_, ?_, ?_, ?_⟩ <;>
        simp [processJobs, hs, ih1, ih2, ih3, ih4, ih5, List.countP_cons] <;> omega
    | false =>
      cases c with
      | true =>
        obtain ⟨ih1, ih2, ih3, ih4, ih5⟩ :=
          ih { m with failure := m.failure + 1,
                      files := m.files ++ [⟨baseName j.src, false⟩] }
        refine ⟨?_, ?_, ?_, ?_, ?_⟩ <;>
          simp [processJobs, hs, ih1, ih2, ih3, ih4, ih5, List.countP_cons] <;> omega
      | false =>
        refine ⟨?_, ?_, ?_, ?_, ?_⟩ <;> simp [processJobs, hs, List.countP_cons]

/-- With continue-on-error unset, a failing job aborts the run with the
per-file error, having recorded exactly one more failure. -/
theorem processJobs_abort_result (m : BatchMetrics) (js : List UpscaleJob)
    (hfail : ∃ j ∈ js, j.succeeds = false) :
    (processJobs false m js).result = .error .perFileFailure ∧
    (processJobs false m js).metrics.failure = m.failure + 1 := by
  induction js generalizing m with
  | nil => simp at hfail
  | cons j rest ih =>
    cases hs : j.succeeds with
    | true =>
      have hfail' : ∃ x ∈ rest, x.succeeds = false := by
        rcases hfail with ⟨x, hx, hxf⟩
        rcases List.mem_cons.mp hx with rfl | hx'
        · rw [hs] at hxf
          cases hxf
        · exact ⟨x, hx', hxf⟩
      obtain ⟨ihr, ihf⟩ :=
        ih { m with success := m.success + 1,
                    files := m.files ++ [⟨baseName j.src, true⟩] } hfail'
      exact ⟨by simp [processJobs, hs, ihr], by simp [processJobs, hs, ihf]⟩
    | false => exact ⟨by simp [processJobs, hs], by simp [processJobs, hs]⟩

/-- With continue-on-error set the loop runs to the end and the run
fails exactly when some failure was recorded. -/
theorem processJobs_continue_result (m : BatchMetrics) (js : List UpscaleJob) :
    (processJobs true m js).result
      = if 0 < m.failure + js.countP (fun j => !j.succeeds) then
          Except.error BatchError.filesFailed
        else Except.ok () := by
  induction js generalizing m with
  | nil => simp [processJobs]
  | cons j rest ih =>
    cases hs : j.succeeds with
    | true => simp [processJobs, hs, ih, List.countP_cons]
    | false => simp [processJobs, hs, ih, List.countP_cons, Nat.add_right_comm]

/-- With a non-empty enumeration in which no destination pre-exists,
`processPath` reduces to the loop with zero skips. -/
theorem processPath_eq_processJobs (overwrite continueOnError : Bool)
    (jobs0 : List UpscaleJob) (hne : jobs0 ≠ [])
    (hkeep : ∀ j ∈ jobs0, j.dstExists = false) :
    processPath overwrite continueOnError jobs0
      = processJobs continueOnError ⟨jobs0.length, 0, 0, 0, []⟩ jobs0 := by
  have hempty : jobs0.isEmpty = false := by
    cases jobs0 with
    | nil => exact absurd rfl hne
    | cons a l => rfl
  have hfilter : filterJobs overwrite jobs0 = jobs0 := by
    cases overwrite with
    | true => rfl
    | false =>
      unfold filterJobs
      simp only [Bool.false_eq_true, if_false]
      exact List.filter_eq_self.mpr (fun j hj => by simp [hkeep j hj])
  have hfe : jobs0.isEmpty = false := hempty
  unfold processPath
  rw [hempty, hfilter]
  simp [hfe, Nat.sub_self]

/-- Each job is counted exactly once between the two counters. -/
theorem countP_succeeds_add (l : List UpscaleJob) :
    l.countP (fun j => j.succeeds) + l.countP (fun j => !j.succeeds) = l.length := by
  induction l with
  | nil => rfl
  | cons j rest ih =>
    cases hs : j.succeeds <;> simp [List.countP_cons, hs] <;> omega

/-- The skip filter never grows the job list. -/
theorem filterJobs_length_le (overwrite : Bool) (l : List UpscaleJob) :
    (filterJobs overwrite l).length ≤ l.length := by
  cases overwrite <;> simp [filterJobs, List.length_filter_le]

/-- `upscaleFile` leaves a file at the destination exactly when the
directory creation, the source open and the destination create all
succeeded — regardless of whether the upscale itself succeeded. -/
theorem upscaleFile_artifact_iff (env : UpscaleFileEnv) :
    (upscaleFileEffects env).2 = true
      ↔ (env.mkdirOk = true ∧ env.openSrcOk = true ∧ env.createDstOk = true) := by
  rcases env with ⟨mk, op, cr, up⟩
  cases mk <;> cases op <;> cases cr <;> cases up <;> simp [upscaleFileEffects]

/-- The volume-resolution step emits at most its own state. -/
theorem wfResolveVolume_events (cfg : VolumeWorkflowConfig) (env : WorkflowEnv) :
    (wfResolveVolume cfg env).1.Sublist [WfStep.discover] := by
  unfold wfResolveVolume
  repeat' split
  all_goals first
    | exact List.nil_sublist _
    | exact List.Sublist.refl _

/-- The volume-creation step emits at most its own state. -/
theorem wfCreateVolume_events (cfg : VolumeWorkflowConfig) (env : WorkflowEnv)
    (volumeID : GoString) :
    (wfCreateVolume cfg env volumeID).1.Sublist [WfStep.createVolume] := by
  unfold wfCreateVolume
  repeat' split
  all_goals first
    | exact List.nil_sublist _
    | exact List.Sublist.refl _

/-- The region-resolution step emits at most its own state. -/
theorem wfResolveRegion_events (cfg : VolumeWorkflowConfig) (env : WorkflowEnv)
    (volumeID : GoString) :
    (wfResolveRegion cfg env volumeID).1.Sublist [WfStep.resolveRegion] := by
  unfold wfResolveRegion
  repeat' split
  all_goals first
    | exact List.nil_sublist _
    | exact List.Sublist.refl _

/-- The endpoint-resolution step emits at most its own state. -/
theorem wfEnsureEndpoint_events (cfg : VolumeWorkflowConfig) (env : WorkflowEnv) :
    (wfEnsureEndpoint cfg env).1.Sublist [WfStep.ensureEndpoint] := by
  unfold wfEnsureEndpoint
  repeat' split
  all_goals first
    | exact List.nil_sublist _
    | exact List.Sublist.refl _

/-- Anything inside the pre-upload part of a trace is one of the three
resolution states. -/
theorem mem_resolve_parts {x : WfStep} {t1 t2 t3 : List WfStep}
    (h1 : t1.Sublist [WfStep.discover]) (h2 : t2.Sublist [WfStep.createVolume])
    (h3 : t3.Sublist [WfStep.resolveRegion]) (hx : x ∈ t1 ++ t2 ++ t3) :
    x = WfStep.discover ∨ x = WfStep.createVolume ∨ x = WfStep.resolveRegion := by
  rcases List.mem_append.mp hx with hx' | hx'
  · rcases List.mem_append.mp hx' with hx'' | hx''
    · exact Or.inl (by simpa using List.Sublist.mem hx'' h1)
    · exact Or.inr (Or.inl (by simpa using List.Sublist.mem hx'' h2))
  · exact Or.inr (Or.inr (by simpa using List.Sublist.mem hx' h3))

/-- Exhaustive characterization of a workflow run by failure point: the
emitted trace, the result, and the environment facts each shape
implies. -/
theorem runVolumeWorkflow_trace_cases (cfg : VolumeWorkflowConfig) (env : WorkflowEnv) :
    ∃ t1 t2 t3 t5 : List WfStep,
      t1.Sublist [WfStep.discover] ∧ t2.Sublist [WfStep.createVolume] ∧
      t3.Sublist [WfStep.resolveRegion] ∧ t5.Sublist [WfStep.ensureEndpoint] ∧
      ((∃ e, (runVolumeWorkflow cfg env).trace = t1 ++ t2 ++ t3
          ∧ (runVolumeWorkflow cfg env).result = .error e)
       ∨ ((runVolumeWorkflow cfg env).trace = t1 ++ t2 ++ t3 ++ [WfStep.upload]
          ∧ (runVolumeWorkflow cfg env).result = .error .uploadFailed
          ∧ env.uploadOk = false)
       ∨ (∃ e, (runVolumeWorkflow cfg env).trace
            = t1 ++ t2 ++ t3 ++ [WfStep.upload] ++ t5
          ∧ (runVolumeWorkflow cfg env).result = .error e ∧ env.uploadOk = true)
       ∨ ((runVolumeWorkflow cfg env).trace
            = t1 ++ t2 ++ t3 ++ [WfStep.upload] ++ t5 ++ [WfStep.submit]
          ∧ (runVolumeWorkflow cfg env).result = .error .submitFailed
          ∧ env.uploadOk = true ∧ env.runSync = none)
       ∨ ((runVolumeWorkflow cfg env).trace
            = t1 ++ t2 ++ t3 ++ [WfStep.upload] ++ t5 ++ [WfStep.submit, WfStep.download]
          ∧ (runVolumeWorkflow cfg env).result = .error .downloadFailed
          ∧ env.uploadOk = true ∧ env.runSync ≠ none ∧ env.downloadOk = false)
       ∨ ((runVolumeWorkflow cfg env).trace
            = t1 ++ t2 ++ t3 ++ [WfStep.upload] ++ t5
                ++ [WfStep.submit, WfStep.download, WfStep.cleanup]
          ∧ (runVolumeWorkflow cfg env).result = .ok ()
          ∧ env.uploadOk = true ∧ env.runSync ≠ none ∧ env.downloadOk = true
          ∧ cfg.keepFailed = false)
       ∨ ((runVolumeWorkflow cfg env).trace
            = t1 ++ t2 ++ t3 ++ [WfStep.upload] ++ t5 ++ [WfStep.submit, WfStep.download]
          ∧ (runVolumeWorkflow cfg env).result = .ok ()
          ∧ env.uploadOk = true ∧ env.runSync ≠ none ∧ env.downloadOk = true
          ∧ cfg.keepFailed = true)) := by
  have h1 := wfResolveVolume_events cfg env
  have h2 := wfCreateVolume_events cfg env (wfResolveVolume cfg env).2
  have h5 := wfEnsureEndpoint_events cfg env
  cases hcv : (wfCreateVolume cfg env (wfResolveVolume cfg env).2).2 with
  | error e =>
    exact ⟨_, _, [], [], h1, h2, List.nil_sublist _, List.nil_sublist _,
      Or.inl ⟨e, by simp [runVolumeWorkflow, hcv], by simp [runVolumeWorkflow, hcv]⟩⟩
  | ok v =>
    have h3 := wfResolveRegion_events cfg env v
    cases hs3 : wfS3Setup env with
    | error e =>
      exact ⟨_, _, _, [], h1, h2, h3, List.nil_sublist _,
        Or.inl ⟨e, by simp [runVolumeWorkflow, hcv, hs3],
          by simp [runVolumeWorkflow, hcv, hs3]⟩⟩
    | ok u =>
      cases hup : env.uploadOk with
      | false =>
        exact ⟨_, _, _, [], h1, h2, h3, List.nil_sublist _,
          Or.inr (Or.inl ⟨by simp [runVolumeWorkflow, hcv, hs3, hup],
            by simp [runVolumeWorkflow, hcv, hs3, hup], rfl⟩)⟩
      | true =>
        cases hee : (wfEnsureEndpoint cfg env).2 with
        | error e =>
          exact ⟨_, _, _, _, h1, h2, h3, h5,
            Or.inr (Or.inr (Or.inl ⟨e,
              by simp [runVolumeWorkflow, hcv, hs3, hup, hee],
              by simp [runVolumeWorkflow, hcv, hs3, hup, hee], rfl⟩))⟩
        | ok eid =>
          cases hrs : env.runSync with
          | none =>
            exact ⟨_, _, _, _, h1, h2, h3, h5,
              Or.inr (Or.inr (Or.inr (Or.inl
                ⟨by simp [runVolumeWorkflow, hcv, hs3, hup, hee, hrs],
                 by simp [runVolumeWorkflow, hcv, hs3, hup, hee, hrs], rfl, rfl⟩)))⟩
          | some job =>
            cases hdl : env.downloadOk with
            | false =>
              exact ⟨_, _, _, _, h1, h2, h3, h5,
                Or.inr (Or.inr (Or.inr (Or.inr (Or.inl
                  ⟨by simp [runVolumeWorkflow, hcv, hs3, hup, hee, hrs, hdl],
                   by simp [runVolumeWorkflow, hcv, hs3, hup, hee, hrs, hdl],
                   rfl, by simp, rfl⟩))))⟩
            | true =>
              cases hkf : cfg.keepFailed with
              | false =>
                exact ⟨_, _, _, _, h1, h2, h3, h5,
                  Or.inr (Or.inr (Or.inr (Or.inr (Or.inr (Or.inl
                    ⟨by simp [runVolumeWorkflow, hcv, hs3, hup, hee, hrs, hdl, hkf],
                     by simp [runVolumeWorkflow, hcv, hs3, hup, hee, hrs, hdl, hkf],
                     rfl, by simp, rfl, rfl⟩)))))⟩
              | true =>
                exact ⟨_, _, _, _, h1, h2, h3, h5,
                  Or.inr (Or.inr (Or.inr (Or.inr (Or.inr (Or.inr
                    ⟨by simp [runVolumeWorkflow, hcv, hs3, hup, hee, hrs, hdl, hkf],
                     by simp [runVolumeWorkflow, hcv, hs3, hup, hee, hrs, hdl, hkf],
                     rfl, by simp, rfl, rfl⟩)))))⟩

/-- `runRunPodFFmpeg` attempts the output write exactly when it returns
success or fails in the write itself. -/
theorem runPodFFmpeg_attempted_iff (endpointName : GoString) (env : RunPodFFmpegEnv) :
    (runPodFFmpegEffects endpointName env).2 = true
      ↔ ((runPodFFmpegEffects endpointName env).1 = .ok ()
          ∨ (runPodFFmpegEffects endpointName env).1 = .error .writeFailed) := by
  rcases env with ⟨le, ri, rs, de, wr⟩
  cases le with
  | none => simp [runPodFFmpegEffects]
  | some eps =>
    cases hf : eps.filter (fun e => endpointName.isPrefixOf e.name) with
    | nil => simp [runPodFFmpegEffects, hf]
    | cons hd tl =>
      cases ri with
      | false => simp [runPodFFmpegEffects, hf]
      | true =>
        cases rs with
        | none => simp [runPodFFmpegEffects, hf]
        | some out =>
          rcases out with ⟨ob, ib⟩
          cases ob with
          | some s =>
            by_cases hs : s = []
            · simp [runPodFFmpegEffects, hf, hs]
            · cases de <;> cases wr <;> simp [runPodFFmpegEffects, hf, hs]
          | none =>
            cases ib with
            | some s =>
              by_cases hs : s = []
              · simp [runPodFFmpegEffects, hf, hs]
              · cases de <;> cases wr <;> simp [runPodFFmpegEffects, hf, hs]
            | none => simp [runPodFFmpegEffects, hf]

/-! ## Claim theorems -/

/-- C2: for every rate and duration, `calculateCost` returns
duration-in-seconds times rate under active billing, and the duration
rounded up to the next whole second times rate under flex billing; in
particular a duration of 1.2 s (1 200 000 000 ns) at rate 0.0002 yields
exactly `2 * 0.0002` under flex and exactly `1.2 * 0.0002` under active
billing. -/
theorem calculateCost_spec (rate : ℚ) (durationNs : ℤ) :
    calculateCost rate durationNs true = durationSeconds durationNs * rate ∧
    calculateCost rate durationNs false = (⌈durationSeconds durationNs⌉ : ℚ) * rate ∧
    calculateCost 0.0002 1200000000 false = 2 * 0.0002 ∧
    calculateCost 0.0002 1200000000 true = 1.2 * 0.0002 := by
  have flex : ∀ r ns, calculateCost r ns false = (⌈durationSeconds ns⌉ : ℚ) * r := by
    intro r ns
    unfold calculateCost
    by_cases h : r = 0
    · simp [h]
    · rw [if_neg h]
      show (if durationSeconds ns > ((goTruncInt (durationSeconds ns)) : ℚ)
          then ((goTruncInt (durationSeconds ns)) : ℚ) + 1
          else ((goTruncInt (durationSeconds ns)) : ℚ)) * r = (⌈durationSeconds ns⌉ : ℚ) * r
      rw [goTruncInt_bump_eq_ceil]
  refine ⟨?_, flex rate durationNs, ?_, ?_⟩
  · unfold calculateCost
    by_cases h : rate = 0 <;> simp [h, durationSeconds]
  · rw [flex]
    norm_num [durationSeconds]
    rw [show ⌈(6 / 5 : ℚ)⌉ = 2 by norm_num [Int.ceil_eq_iff]]
    norm_num
  · unfold calculateCost
    norm_num [durationSeconds]

/-- C5: calling ensure-endpoint twice with the same name against a
well-behaved server, with no intervening change, returns the same
endpoint id both times and creates at most one endpoint: the second
call never issues a creation request and leaves the server unchanged,
and the first call creates exactly when no existing endpoint name has
the requested name as a prefix. -/
theorem serverEnsure_idempotent (s : EndpointServer) (configName : GoString) :
    ((serverEnsure (serverEnsure s configName).1 configName).2).result
      = ((serverEnsure s configName).2).result ∧
    ((serverEnsure (serverEnsure s configName).1 configName).2).createRequested = false ∧
    (serverEnsure (serverEnsure s configName).1 configName).1 = (serverEnsure s configName).1 ∧
    ((serverEnsure s configName).1).endpoints.length ≤ s.endpoints.length + 1 ∧
    (((serverEnsure s configName).2).createRequested = true
      ↔ s.endpoints.find? (fun e => configName.isPrefixOf e.name) = none) := by
  cases h : s.endpoints.find? (fun e => configName.isPrefixOf e.name) with
  | some e =>
    simp [serverEnsure, ensureRunPodEndpoint, h]
  | none =>
    have hfind : (s.endpoints ++
        [({ id := freshEndpointId s.counter, name := configName } : RunPodEndpoint)]).find?
          (fun e => configName.isPrefixOf e.name)
        = some { id := freshEndpointId s.counter, name := configName } := by
      rw [find?_append_of_left_none _ _ _ h]
      simp [List.find?, goString_isPrefixOf_self]
    simp [serverEnsure, ensureRunPodEndpoint, ensureCreate, h, hfind]

/-- C7 (counterexample): a transport-level failure of the listing
request inside `EnsureRunPodEndpoint` returns an error without falling
through to creation, contradicting the claim that every failure of the
endpoint-listing step is treated as "not found". -/
theorem ensure_transportError_aborts :
    (ensureRunPodEndpoint .transportError
        (.ok { id := "e1".data, name := "io".data }) "io".data).createRequested = false ∧
    (ensureRunPodEndpoint .transportError
        (.ok { id := "e1".data, name := "io".data }) "io".data).result
      = .error .listTransport := by
  exact ⟨rfl, rfl⟩

/-- C7 (amended): a listing failure in the form of a non-200 HTTP status
or an undecodable 200 response body is logged and treated as "not
found", falling through to the creation path rather than returning an
error; a transport-level error on the listing request, however, returns
an error and never reaches creation. -/
theorem ensure_listFailure_fallsThrough (status : ℕ) (create : CreateOutcome)
    (configName : GoString) :
    ensureRunPodEndpoint (.badStatus status) create configName = ensureCreate create ∧
    ensureRunPodEndpoint .decodeError create configName = ensureCreate create ∧
    (ensureCreate create).createRequested = true ∧
    ensureRunPodEndpoint .transportError create configName
      = ⟨.error .listTransport, false⟩ := by
  refine ⟨rfl, rfl, ?_, rfl⟩
  cases create <;> rfl

/-- C9: `CreateNetworkVolume` rejects any size below the 10 GB provider
minimum before issuing the HTTP request, and for any size of at least
10 GB the size check passes and the request is issued. -/
theorem createNetworkVolume_minSize (sizeGB : ℤ) (post : PostOutcome) :
    (sizeGB < 10 → createNetworkVolume sizeGB post = (.error .sizeTooSmall, false)) ∧
    (10 ≤ sizeGB → (createNetworkVolume sizeGB post).2 = true) := by
  constructor
  · intro h
    simp [createNetworkVolume, h]
  · intro h
    have h' : ¬ sizeGB < 10 := not_lt.mpr h
    cases post <;> simp [createNetworkVolume, h']

/-- C9 witness: a 5 GB request fails with the minimum-size error and no
request issued; a 12 GB request passes the size check and issues the
request. -/
theorem createNetworkVolume_minSize_witness :
    createNetworkVolume 5 (.ok "v1".data) = (.error .sizeTooSmall, false) ∧
    (createNetworkVolume 12 (.ok "v1".data)).2 = true :=
  ⟨(createNetworkVolume_minSize 5 (.ok "v1".data)).1 (by norm_num),
   (createNetworkVolume_minSize 12 (.ok "v1".data)).2 (by norm_num)⟩

/-- C1 (counterexample): with no volume id, no endpoint to discover
from, and a requested size below the 10 GB minimum (the configuration
produced by `--volume 5`), the workflow performs neither discovery nor
creation — no volume id is ever resolved — yet still attempts the
upload, refuting "the upload is never attempted before a volume id is
resolved". -/
theorem volumeWorkflow_upload_without_volume :
    WfStep.upload ∈ (runVolumeWorkflow smallVolumeCfg healthyEnv).trace ∧
    (runVolumeWorkflow smallVolumeCfg healthyEnv).volumeID = [] ∧
    WfStep.discover ∉ (runVolumeWorkflow smallVolumeCfg healthyEnv).trace ∧
    WfStep.createVolume ∉ (runVolumeWorkflow smallVolumeCfg healthyEnv).trace := by
  decide

/-- C1 (amended): in every workflow run the states appear as a
subsequence of the fixed order resolve-volume, create-volume,
resolve-region, upload, resolve-endpoint, submit, download, cleanup
(each at most once, in that order); the job is never submitted unless
the upload was attempted and completed; cleanup never runs unless the
download was attempted and completed successfully; and a fatal failure
of any state aborts all remaining states — in particular a failed
upload prevents endpoint resolution, submission, download and cleanup;
a failed submission prevents download and cleanup; and an erroring run
never reaches cleanup.  (Unlike the claim as stated, the upload can be
attempted in a run in which no volume id was ever resolved.) -/
theorem volumeWorkflow_ordering (cfg : VolumeWorkflowConfig) (env : WorkflowEnv) :
    ((runVolumeWorkflow cfg env).trace).Sublist wfCanonicalOrder ∧
    (WfStep.submit ∈ (runVolumeWorkflow cfg env).trace →
      WfStep.upload ∈ (runVolumeWorkflow cfg env).trace ∧ env.uploadOk = true) ∧
    (WfStep.cleanup ∈ (runVolumeWorkflow cfg env).trace →
      WfStep.download ∈ (runVolumeWorkflow cfg env).trace ∧ env.downloadOk = true ∧
      (runVolumeWorkflow cfg env).result = .ok ()) ∧
    (env.uploadOk = false →
      WfStep.submit ∉ (runVolumeWorkflow cfg env).trace ∧
      WfStep.download ∉ (runVolumeWorkflow cfg env).trace ∧
      WfStep.cleanup ∉ (runVolumeWorkflow cfg env).trace) ∧
    (env.runSync = none →
      WfStep.download ∉ (runVolumeWorkflow cfg env).trace ∧
      WfStep.cleanup ∉ (runVolumeWorkflow cfg env).trace) ∧
    (∀ e, (runVolumeWorkflow cfg env).result = .error e →
      WfStep.cleanup ∉ (runVolumeWorkflow cfg env).trace) := by
  obtain ⟨t1, t2, t3, t5, h1, h2, h3, h5, hcase⟩ := runVolumeWorkflow_trace_cases cfg env
  rcases hcase with ⟨e, htr, hres⟩ | ⟨htr, hres, hupF⟩ | ⟨e, htr, hres, hupT⟩
    | ⟨htr, hres, hupT, hrsN⟩ | ⟨htr, hres, hupT, hrsS, hdlF⟩
    | ⟨htr, hres, hupT, hrsS, hdlT, hkfF⟩ | ⟨htr, hres, hupT, hrsS, hdlT, hkfT⟩
  · -- failure before the upload
    have hsub : ((runVolumeWorkflow cfg env).trace).Sublist
        [WfStep.discover, WfStep.createVolume, WfStep.resolveRegion] := by
      rw [htr]
      exact (h1.append h2).append h3
    refine ⟨hsub.trans (by decide), ?_, ?_, ?_, ?_, ?_⟩
    · intro hx
      exact absurd (hsub.subset hx) (by decide)
    · intro hx
      exact absurd (hsub.subset hx) (by decide)
    · intro _
      exact ⟨fun hx => absurd (hsub.subset hx) (by decide),
        fun hx => absurd (hsub.subset hx) (by decide),
        fun hx => absurd (hsub.subset hx) (by decide)⟩
    · intro _
      exact ⟨fun hx => absurd (hsub.subset hx) (by decide),
        fun hx => absurd (hsub.subset hx) (by decide)⟩
    · intro e' _
      exact fun hx => absurd (hsub.subset hx) (by decide)
  · -- the upload itself failed
    have hsub : ((runVolumeWorkflow cfg env).trace).Sublist
        [WfStep.discover, WfStep.createVolume, WfStep.resolveRegion, WfStep.upload] := by
      rw [htr]
      exact ((h1.append h2).append h3).append (List.Sublist.refl _)
    refine ⟨hsub.trans (by decide), ?_, ?_, ?_, ?_, ?_⟩
    · intro hx
      exact absurd (hsub.subset hx) (by decide)
    · intro hx
      exact absurd (hsub.subset hx) (by decide)
    · intro _
      exact ⟨fun hx => absurd (hsub.subset hx) (by decide),
        fun hx => absurd (hsub.subset hx) (by decide),
        fun hx => absurd (hsub.subset hx) (by decide)⟩
    · intro _
      exact ⟨fun hx => absurd (hsub.subset hx) (by decide),
        fun hx => absurd (hsub.subset hx) (by decide)⟩
    · intro e' _
      exact fun hx => absurd (hsub.subset hx) (by decide)
  · -- endpoint resolution failed (after a completed upload)
    have hsub : ((runVolumeWorkflow cfg env).trace).Sublist
        [WfStep.discover, WfStep.createVolume, WfStep.resolveRegion, WfStep.upload,
         WfStep.ensureEndpoint] := by
      rw [htr]
      exact (((h1.append h2).append h3).append (List.Sublist.refl _)).append h5
    refine ⟨hsub.trans (by decide), ?_, ?_, ?_, ?_, ?_⟩
    · intro hx
      exact absurd (hsub.subset hx) (by decide)
    · intro hx
      exact absurd (hsub.subset hx) (by decide)
    · intro h
      simp [h] at hupT
    · intro _
      exact ⟨fun hx => absurd (hsub.subset hx) (by decide),
        fun hx => absurd (hsub.subset hx) (by decide)⟩
    · intro e' _
      exact fun hx => absurd (hsub.subset hx) (by decide)
  · -- the submission failed
    have hsub : ((runVolumeWorkflow cfg env).trace).Sublist
        [WfStep.discover, WfStep.createVolume, WfStep.resolveRegion, WfStep.upload,
         WfStep.ensureEndpoint, WfStep.submit] := by
      rw [htr]
      exact ((((h1.append h2).append h3).append (List.Sublist.refl _)).append h5).append
        (List.Sublist.refl _)
    refine ⟨hsub.trans (by decide), ?_, ?_, ?_, ?_, ?_⟩
    · intro _
      refine ⟨?_, hupT⟩
      rw [htr]
      simp
    · intro hx
      exact absurd (hsub.subset hx) (by decide)
    · intro h
      simp [h] at hupT
    · intro _
      exact ⟨fun hx => absurd (hsub.subset hx) (by decide),
        fun hx => absurd (hsub.subset hx) (by decide)⟩
    · intro e' _
      exact fun hx => absurd (hsub.subset hx) (by decide)
  · -- the download failed
    have hsub : ((runVolumeWorkflow cfg env).trace).Sublist
        [WfStep.discover, WfStep.createVolume, WfStep.resolveRegion, WfStep.upload,
         WfStep.ensureEndpoint, WfStep.submit, WfStep.download] := by
      rw [htr]
      exact ((((h1.append h2).append h3).append (List.Sublist.refl _)).append h5).append
        (List.Sublist.refl _)
    refine ⟨hsub.trans (by decide), ?_, ?_, ?_, ?_, ?_⟩
    · intro _
      refine ⟨?_, hupT⟩
      rw [htr]
      simp
    · intro hx
      exact absurd (hsub.subset hx) (by decide)
    · intro h
      simp [h] at hupT
    · intro h
      exact absurd h hrsS
    · intro e' _
      exact fun hx => absurd (hsub.subset hx) (by decide)
  · -- full success with cleanup
    have hsub : ((runVolumeWorkflow cfg env).trace).Sublist wfCanonicalOrder := by
      rw [htr]
      exact ((((h1.append h2).append h3).append (List.Sublist.refl _)).append h5).append
        (List.Sublist.refl _)
    refine ⟨hsub, ?_, ?_, ?_, ?_, ?_⟩
    · intro _
      refine ⟨?_, hupT⟩
      rw [htr]
      simp
    · intro _
      refine ⟨?_, hdlT, hres⟩
      rw [htr]
      simp
    · intro h
      simp [h] at hupT
    · intro h
      exact absurd h hrsS
    · intro e' hres'
      rw [hres] at hres'
      exact Except.noConfusion hres'
  · -- full success with cleanup suppressed by keep-on-failure
    have hsub : ((runVolumeWorkflow cfg env).trace).Sublist
        [WfStep.discover, WfStep.createVolume, WfStep.resolveRegion, WfStep.upload,
         WfStep.ensureEndpoint, WfStep.submit, WfStep.download] := by
      rw [htr]
      exact ((((h1.append h2).append h3).append (List.Sublist.refl _)).append h5).append
        (List.Sublist.refl _)
    refine ⟨hsub.trans (by decide), ?_, ?_, ?_, ?_, ?_⟩
    · intro _
      refine ⟨?_, hupT⟩
      rw [htr]
      simp
    · intro hx
      exact absurd (hsub.subset hx) (by decide)
    · intro h
      simp [h] at hupT
    · intro h
      exact absurd h hrsS
    · intro e' hres'
      rw [hres] at hres'
      exact Except.noConfusion hres'

/-- C1 witness: in a fully successful run with an explicit volume and
endpoint, the submission and cleanup hypotheses are realized: the
upload and the download appear in the trace and the run succeeds. -/
theorem volumeWorkflow_ordering_witness :
    WfStep.upload ∈ (runVolumeWorkflow explicitVolumeCfg healthyEnv).trace ∧
    WfStep.download ∈ (runVolumeWorkflow explicitVolumeCfg healthyEnv).trace ∧
    (runVolumeWorkflow explicitVolumeCfg healthyEnv).result = .ok () := by
  have h := volumeWorkflow_ordering explicitVolumeCfg healthyEnv
  exact ⟨(h.2.1 (by decide)).1, (h.2.2.1 (by decide)).1, (h.2.2.1 (by decide)).2.2⟩

/-- C6 (counterexample): a run whose job submission fails, with
keep-on-failure unset, aborts before cleanup and leaves the volume in
place — refuting "for every combination of job outcome and
keep-on-failure flag other than (failed, keep-on-failure set), the
workflow deletes the volume". -/
theorem volumeWorkflow_no_cleanup_on_failure :
    (runVolumeWorkflow explicitVolumeCfg jobFailsEnv).result = .error .submitFailed ∧
    explicitVolumeCfg.keepFailed = false ∧
    WfStep.cleanup ∉ (runVolumeWorkflow explicitVolumeCfg jobFailsEnv).trace := by
  decide

/-- C6 (amended): the workflow deletes the volume exactly at the end of
a fully successful run with keep-on-failure unset: cleanup appears in
the trace iff the run's result is success and the flag is false.  A
failed run aborts before cleanup regardless of the flag, and a set flag
suppresses deletion even on success. -/
theorem volumeWorkflow_cleanup_iff (cfg : VolumeWorkflowConfig) (env : WorkflowEnv) :
    WfStep.cleanup ∈ (runVolumeWorkflow cfg env).trace
      ↔ ((runVolumeWorkflow cfg env).result = .ok () ∧ cfg.keepFailed = false) := by
  obtain ⟨t1, t2, t3, t5, h1, h2, h3, h5, hcase⟩ := runVolumeWorkflow_trace_cases cfg env
  rcases hcase with ⟨e, htr, hres⟩ | ⟨htr, hres, hupF⟩ | ⟨e, htr, hres, hupT⟩
    | ⟨htr, hres, hupT, hrsN⟩ | ⟨htr, hres, hupT, hrsS, hdlF⟩
    | ⟨htr, hres, hupT, hrsS, hdlT, hkfF⟩ | ⟨htr, hres, hupT, hrsS, hdlT, hkfT⟩
  · constructor
    · intro hx
      have hsub := (h1.append h2).append h3
      rw [htr] at hx
      exact absurd (hsub.subset hx) (by decide)
    · rintro ⟨hok, _⟩
      rw [hres] at hok
      exact Except.noConfusion hok
  · constructor
    · intro hx
      have hsub := ((h1.append h2).append h3).append
        (List.Sublist.refl [WfStep.upload])
      rw [htr] at hx
      exact absurd (hsub.subset hx) (by decide)
    · rintro ⟨hok, _⟩
      rw [hres] at hok
      exact Except.noConfusion hok
  · constructor
    · intro hx
      have hsub := (((h1.append h2).append h3).append
        (List.Sublist.refl [WfStep.upload])).append h5
      rw [htr] at hx
      exact absurd (hsub.subset hx) (by decide)
    · rintro ⟨hok, _⟩
      rw [hres] at hok
      exact Except.noConfusion hok
  · constructor
    · intro hx
      have hsub := ((((h1.append h2).append h3).append
        (List.Sublist.refl [WfStep.upload])).append h5).append
        (List.Sublist.refl [WfStep.submit])
      rw [htr] at hx
      exact absurd (hsub.subset hx) (by decide)
    · rintro ⟨hok, _⟩
      rw [hres] at hok
      exact Except.noConfusion hok
  · constructor
    · intro hx
      have hsub := ((((h1.append h2).append h3).append
        (List.Sublist.refl [WfStep.upload])).append h5).append
        (List.Sublist.refl [WfStep.submit, WfStep.download])
      rw [htr] at hx
      exact absurd (hsub.subset hx) (by decide)
    · rintro ⟨hok, _⟩
      rw [hres] at hok
      exact Except.noConfusion hok
  · constructor
    · intro _
      exact ⟨hres, hkfF⟩
    · intro _
      rw [htr]
      simp
  · constructor
    · intro hx
      have hsub := ((((h1.append h2).append h3).append
        (List.Sublist.refl [WfStep.upload])).append h5).append
        (List.Sublist.refl [WfStep.submit, WfStep.download])
      rw [htr] at hx
      exact absurd (hsub.subset hx) (by decide)
    · rintro ⟨_, hkf⟩
      rw [hkfT] at hkf
      exact Bool.noConfusion hkf

/-- C3: in every batch in which some file fails and no destination
pre-exists: with continue-on-error unset the engine processes exactly
the files up to and including the first failing one, records exactly
one failure, and the run reports batch failure; with continue-on-error
set it processes every file, counting successes and failures, and still
returns a failure indicator because at least one file failed. -/
theorem processPath_continueOnError_spec (overwrite : Bool) (jobs0 : List UpscaleJob)
    (hkeep : ∀ j ∈ jobs0, j.dstExists = false)
    (hfail : ∃ j ∈ jobs0, j.succeeds = false) :
    (processPath overwrite false jobs0).processed
        = jobs0.take (jobs0.findIdx (fun j => !j.succeeds) + 1) ∧
    (processPath overwrite false jobs0).result = .error .perFileFailure ∧
    (processPath overwrite false jobs0).metrics.failure = 1 ∧
    (processPath overwrite false jobs0).metrics.success
        = ((processPath overwrite false jobs0).processed).countP (fun j => j.succeeds) ∧
    (processPath overwrite true jobs0).processed = jobs0 ∧
    (processPath overwrite true jobs0).metrics.success
        = jobs0.countP (fun j => j.succeeds) ∧
    (processPath overwrite true jobs0).metrics.failure
        = jobs0.countP (fun j => !j.succeeds) ∧
    (processPath overwrite true jobs0).result = .error .filesFailed := by
  have hne : jobs0 ≠ [] := by
    rcases hfail with ⟨j, hj, _⟩
    exact List.ne_nil_of_mem hj
  rw [processPath_eq_processJobs overwrite false jobs0 hne hkeep,
      processPath_eq_processJobs overwrite true jobs0 hne hkeep]
  refine ⟨processJobs_processed_abort _ _, (processJobs_abort_result _ _ hfail).1,
    ?_, ?_, processJobs_processed_continue _ _, ?_, ?_, ?_⟩
  · have h := (processJobs_abort_result ⟨jobs0.length, 0, 0, 0, []⟩ jobs0 hfail).2
    simpa using h
  · have h := (processJobs_counts false ⟨jobs0.length, 0, 0, 0, []⟩ jobs0).1
    simpa using h
  · have h := (processJobs_counts true ⟨jobs0.length, 0, 0, 0, []⟩ jobs0).1
    rw [processJobs_processed_continue] at h
    simpa using h
  · have h := (processJobs_counts true ⟨jobs0.length, 0, 0, 0, []⟩ jobs0).2.1
    rw [processJobs_processed_continue] at h
    simpa using h
  · rw [processJobs_continue_result]
    have hpos : 0 < jobs0.countP (fun j => !j.succeeds) := by
      rw [List.countP_pos_iff]
      rcases hfail with ⟨j, hj, hjf⟩
      exact ⟨j, hj, by simp [hjf]⟩
    simp [hpos]

/-- C3 witness: a five-file batch whose third file fails processes
exactly 3 files (2 succeed, 1 fails) and reports batch failure when
continue-on-error is unset; with it set, all 5 files are processed, 4
succeed, 1 fails, and the run still reports failure. -/
theorem processPath_continueOnError_spec_witness :
    ((processPath false false sampleBatch).processed).length = 3 ∧
    (processPath false false sampleBatch).metrics.success = 2 ∧
    (processPath false false sampleBatch).metrics.failure = 1 ∧
    (processPath false false sampleBatch).result = .error .perFileFailure ∧
    ((processPath false true sampleBatch).processed).length = 5 ∧
    (processPath false true sampleBatch).metrics.success = 4 ∧
    (processPath false true sampleBatch).metrics.failure = 1 ∧
    (processPath false true sampleBatch).result = .error .filesFailed := by
  have h := processPath_continueOnError_spec false sampleBatch (by decide) (by decide)
  exact ⟨by decide, by decide, h.2.2.1, h.2.1, by decide, by decide, by decide,
    h.2.2.2.2.2.2.2⟩

/-- C4: a second batch run over the same directory with the overwrite
flag unset processes zero files when the first run fully succeeded:
every job whose destination exists is filtered out before processing,
so the run returns success immediately without invoking the execution
path. -/
theorem processPath_second_run_no_op (continueOnError : Bool) (jobs0 : List UpscaleJob)
    (hne : jobs0 ≠ []) (hdone : ∀ j ∈ jobs0, j.dstExists = true) :
    processPath false continueOnError jobs0 = ⟨⟨0, 0, 0, 0, []⟩, .ok (), []⟩ := by
  have hempty : jobs0.isEmpty = false := by
    cases jobs0 with
    | nil => exact absurd rfl hne
    | cons a l => rfl
  have hfilter : filterJobs false jobs0 = [] := by
    unfold filterJobs
    simp only [Bool.false_eq_true, if_false]
    exact List.filter_eq_nil_iff.mpr (fun j hj => by simp [hdone j hj])
  unfold processPath
  rw [hempty, hfilter]
  simp [List.length_pos.mpr hne]

/-- C4 witness: rerunning a two-file batch whose outputs both exist
processes nothing and succeeds. -/
theorem processPath_second_run_no_op_witness :
    processPath false false [sampleDoneJob 1, sampleDoneJob 2]
      = ⟨⟨0, 0, 0, 0, []⟩, .ok (), []⟩ :=
  processPath_second_run_no_op false [sampleDoneJob 1, sampleDoneJob 2]
    (by decide) (by decide)

/-- C10: throughout every batch run each processed job appends exactly
one per-file record and increments exactly one of the two counters, so
`Success + Failure` equals the number of records, which equals the
number of processed jobs; `Skipped` is fixed at enumeration time as
`TotalFiles` minus the number of jobs left to process; and a run that
processes every non-skipped job ends with
`Skipped + Success + Failure = TotalFiles`. -/
theorem processPath_metrics_invariant (overwrite continueOnError : Bool)
    (jobs0 : List UpscaleJob) :
    (processPath overwrite continueOnError jobs0).metrics.success
        + (processPath overwrite continueOnError jobs0).metrics.failure
      = ((processPath overwrite continueOnError jobs0).metrics.files).length ∧
    ((processPath overwrite continueOnError jobs0).metrics.files).length
      = ((processPath overwrite continueOnError jobs0).processed).length ∧
    (processPath overwrite continueOnError jobs0).metrics.skipped
        + (filterJobs overwrite jobs0).length
      = (processPath overwrite continueOnError jobs0).metrics.totalFiles ∧
    ((processPath overwrite continueOnError jobs0).processed = filterJobs overwrite jobs0 →
      (processPath overwrite continueOnError jobs0).metrics.skipped
          + (processPath overwrite continueOnError jobs0).metrics.success
          + (processPath overwrite continueOnError jobs0).metrics.failure
        = (processPath overwrite continueOnError jobs0).metrics.totalFiles) := by
  unfold processPath
  split
  · rename_i hemp
    have h0 : jobs0 = [] := List.isEmpty_iff.mp hemp
    subst h0
    cases overwrite <;> simp [filterJobs]
  · rename_i hemp
    split
    · rename_i hguard
      simp only [Bool.and_eq_true] at hguard
      have hfe : filterJobs overwrite jobs0 = [] := List.isEmpty_iff.mp hguard.1.2
      simp [hfe]
    · rename_i hguard
      obtain ⟨h1, h2, h3, h4, h5⟩ := processJobs_counts continueOnError
        ⟨jobs0.length, jobs0.length - (filterJobs overwrite jobs0).length, 0, 0, []⟩
        (filterJobs overwrite jobs0)
      dsimp only at h1 h2 h3 h4 h5
      simp only [List.length_nil] at h3
      have hle := filterJobs_length_le overwrite jobs0
      refine ⟨?_, ?_, ?_, ?_⟩
      · rw [h1, h2, h3]
        have := countP_succeeds_add
          ((processJobs continueOnError
            ⟨jobs0.length, jobs0.length - (filterJobs overwrite jobs0).length, 0, 0, []⟩
            (filterJobs overwrite jobs0)).processed)
        omega
      · rw [h3]
        omega
      · rw [h4, h5]
        omega
      · intro hproc
        rw [h1, h2, h4, h5, hproc]
        have := countP_succeeds_add (filterJobs overwrite jobs0)
        omega

/-- C10 witness: the five-file sample batch with continue-on-error set
processes every non-skipped job and its counters add up to the total. -/
theorem processPath_metrics_invariant_witness :
    (processPath false true sampleBatch).metrics.skipped
        + (processPath false true sampleBatch).metrics.success
        + (processPath false true sampleBatch).metrics.failure
      = (processPath false true sampleBatch).metrics.totalFiles := by
  have h := processPath_metrics_invariant false true sampleBatch
  exact h.2.2.2 (by decide)

/-- C8 (counterexample): when the upscaler fails after the destination
file was created, `upscaleFile` returns an error yet a (partial or
empty) file has been written at the destination path, contradicting
"writes nothing on failure". -/
theorem upscaleFile_leaves_artifact_on_failure :
    (upscaleFileEffects ⟨true, true, true, false⟩).1 = .error .upscaleFailed ∧
    (upscaleFileEffects ⟨true, true, true, false⟩).2 = true :=
  ⟨rfl, rfl⟩

/-- C8 (amended): on success exactly one output artifact is written, in
both per-file execution paths; the remote ffmpeg path attempts no write
to the destination on any failure other than a failure of the final
write itself; but `upscaleFile` creates the destination file before
invoking the upscaler and never removes it, so a file is left at the
destination exactly when directory creation, source open and
destination create succeeded — in particular also when the upscale
operation itself fails. -/
theorem perFile_write_effects (envU : UpscaleFileEnv) (endpointName : GoString)
    (envR : RunPodFFmpegEnv) :
    ((upscaleFileEffects envU).1 = .ok () → (upscaleFileEffects envU).2 = true) ∧
    ((upscaleFileEffects envU).2 = true ↔
        (envU.mkdirOk = true ∧ envU.openSrcOk = true ∧ envU.createDstOk = true)) ∧
    ((runPodFFmpegEffects endpointName envR).1 = .ok () →
        (runPodFFmpegEffects endpointName envR).2 = true) ∧
    (∀ e, (runPodFFmpegEffects endpointName envR).1 = .error e →
        e ≠ .writeFailed → (runPodFFmpegEffects endpointName envR).2 = false) := by
  refine ⟨?_, upscaleFile_artifact_iff envU, ?_, ?_⟩
  · intro hok
    rcases envU with ⟨mk, op, cr, up⟩
    cases mk <;> cases op <;> cases cr <;> cases up <;> simp_all [upscaleFileEffects]
  · intro hok
    exact (runPodFFmpeg_attempted_iff endpointName envR).mpr (Or.inl hok)
  · intro e herr hne
    cases h2 : (runPodFFmpegEffects endpointName envR).2 with
    | false => rfl
    | true =>
      rcases (runPodFFmpeg_attempted_iff endpointName envR).mp h2 with hok | hwf
      · rw [herr] at hok
        cases hok
      · have h3 := herr.symm.trans hwf
        simp only [Except.error.injEq] at h3
        exact absurd h3 hne

/-- C8 witness: with every step succeeding the upscale path leaves
exactly its output artifact, and when the remote job fails the remote
ffmpeg path attempts no write. -/
theorem perFile_write_effects_witness :
    (upscaleFileEffects ⟨true, true, true, true⟩).2 = true ∧
    (runPodFFmpegEffects "io-ffmpeg".data sampleFFmpegJobFails).2 = false :=
  ⟨(perFile_write_effects ⟨true, true, true, true⟩ "io-ffmpeg".data sampleFFmpegJobFails).1
      (by decide),
   (perFile_write_effects ⟨true, true, true, true⟩ "io-ffmpeg".data sampleFFmpegJobFails).2.2.2
      FFmpegRunError.jobFailed (by decide) (by decide)⟩

end IOSuite
